import Mathlib

/-!
Verification of the eyeurl concurrent URL-capture pipeline.

This file gives a shallow embedding of the core logic of the repository:

* `src/eyeurl/main.py` — the availability prober
  (`check_url_availability_async`, `check_urls_availability`);
* `src/eyeurl/capture.py` — the page capture unit (`capture_url_sync`),
  the retry wrapper (`worker_process`), the parallel orchestrator
  (`capture_urls_parallel`), and the URL-file reader (`read_urls`).

External effects (the Playwright browser, the network, the clock, the
filesystem) are modelled as explicit environment values fed to the
embedded functions; each embedded function reproduces the branching
structure of its Python source on those inputs.
-/

namespace EyeUrl

/-! ## Data model

The loosely-typed Python result dictionaries are embedded as records.
An `Option` field with value `none` stands for an absent dictionary key
(or Python `None`); dictionary keys of `capture.py` that no claim ever
touches (`response_headers`, `description`, `favicon`, `warning`, and
the timing sub-fields of `batch_info`) are omitted from the record.
-/

/-- Connection-error categories set by `capture_url_sync`
(src/eyeurl/capture.py lines 1014-1030). -/
inductive ConnectionError
  | REFUSED
  | DNS_FAILED
  | TIMEOUT
  | SSL_ERROR
deriving DecidableEq, Repr

/-- The `batch_info` dictionary attached by `capture_urls_parallel`
(src/eyeurl/capture.py lines 1652-1663).  The nested `batch_time` and
`page_info` timing/paging statistics are omitted: no claim reads them. -/
structure BatchInfo where
  total_urls : Nat
  total_success : Nat
  total_failed : Nat
deriving DecidableEq, Repr

/-- The open `meta_data` mapping of a capture result.  Only the keys the
claims mention are modelled. -/
structure MetaData where
  retry_attempts : Option Nat := none
  batch_info : Option BatchInfo := none
deriving DecidableEq, Repr

/-- A capture result dictionary as built by `capture_url_sync` and by the
orchestrator's synthesized error records.  `error = none` models an absent
`error` key; `processing_time = none` models an absent `processing_time`
key.  `isPartial` models the `"partial"` key (absent = `false`).  Elapsed
times are modelled in whole seconds as naturals. -/
structure CaptureResult where
  url : String
  title : Option String := none
  status_code : Option Nat := none
  content_size : Option Nat := none
  screenshot : String
  timestamp : String
  error : Option String := none
  success : Bool := false
  connection_error : Option ConnectionError := none
  isPartial : Bool := false
  processing_time : Option Nat := none
  meta_data : MetaData := {}
deriving DecidableEq, Repr

/-! ## Availability prober (src/eyeurl/main.py)

`check_url_availability_async` issues up to three requests for a URL:
a HEAD, a fallback GET, and a protocol-swapped GET.  Each request either
yields an HTTP response (with some status code) or raises.  The raised
exception kinds that the outer handlers distinguish are embedded as an
inductive; `otherExn` stands for any exception matched only by the final
catch-all `except (ClientConnectorError, TimeoutError, InvalidURL,
Exception)` clause (main.py line 378). -/

/-- Exception kinds reaching the outer handlers of
`check_url_availability_async` (main.py lines 372-380). -/
inductive ProbeExn
  | sslCertError
  | tooManyRedirects
  | connFailure
  | timeoutExn
  | dnsFailure
  | malformedUrl
  | otherExn
deriving DecidableEq, Repr

/-- Outcome of one probe request: an HTTP response with a status code, or
a raised exception. -/
inductive StageOutcome
  | response (status : Nat)
  | raised (e : ProbeExn)
deriving DecidableEq, Repr

/-- Embedding of `check_url_availability_async` (main.py lines 288-380)
over the outcomes of its three request stages.  The inner bare `except:`
clauses swallow any exception of the earlier stages; only the exception
of the last attempted stage (the protocol-swapped GET) is re-raised to
the outer handlers, which classify SSL errors and excessive redirects as
accessible and everything else as inaccessible. -/
def check_url_availability_async (headReq getReq altGetReq : StageOutcome) :
    Bool × Option String :=
  match headReq with
  | .response _ => (true, none)
  | .raised _ =>
    match getReq with
    | .response _ => (true, none)
    | .raised _ =>
      match altGetReq with
      | .response _ => (true, some "使用替代协议访问成功")
      | .raised e =>
        match e with
        | .sslCertError => (true, some "SSL证书错误(但仍将截图)")
        | .tooManyRedirects => (true, some "重定向过多(但仍将截图)")
        | _ => (false, some "连接错误或超时")

/-- Python `dict[k] = v` on an insertion-ordered association list: an
existing key keeps its position and gets the new value, a fresh key is
appended. -/
def pyDictInsert (d : List (String × Option String)) (k : String)
    (v : Option String) : List (String × Option String) :=
  if d.any (fun p => p.1 = k) then
    d.map (fun p => if p.1 = k then (k, v) else p)
  else
    d ++ [(k, v)]

/-- The partitioning loop of `check_urls_availability`
(main.py lines 468-478): each `(url, is_accessible, reason)` triple is,
left to right, appended to the accessible list or written into the
inaccessible dict. -/
def availabilityFold (entries : List (String × Bool × Option String))
    (acc : List String) (inacc : List (String × Option String)) :
    List String × List (String × Option String) :=
  match entries with
  | [] => (acc, inacc)
  | (url, isAcc, reason) :: rest =>
    if isAcc then availabilityFold rest (acc ++ [url]) inacc
    else availabilityFold rest acc (pyDictInsert inacc url reason)

/-- Embedding of `check_urls_availability` (main.py lines 415-482).
`outcomes` gives, per input position, the `(is_accessible, reason)` pair
produced for that occurrence by `check_urls_batch_async` (batching splits
the input into chunks and re-concatenates the results in order, so the
per-position outcome list is the faithful environment). -/
def check_urls_availability (urls : List String)
    (outcomes : List (Bool × Option String)) :
    List String × List (String × Option String) :=
  availabilityFold (urls.zip outcomes) [] []

/-! ## Page capture unit (src/eyeurl/capture.py, `capture_url_sync`)

The external Playwright capability and the wall clock are modelled by a
`CaptureEnv` value: the outcome of the navigation call, the response
headers, the elapsed wall-clock seconds observed at each of the three
absolute-timeout checks, and the success/size of each screenshot call.
The swallowed wait stages (`domcontentloaded`, `networkidle`, `load`,
body-selector visibility, the lazy-load scroll, the extra sleep) only log
on expiry and change no field of the result dictionary, so they carry no
environment data.  The screenshot file the browser writes is modelled by
the `written` field of the outcome (`some n` = a file of `n` bytes now
exists under the result's `screenshot` name). -/

/-- `marker` occurs as a contiguous subsequence of the second list
(Python's `marker in error_message`). -/
def listContainsSeq (marker : List Char) : List Char → Bool
  | [] => marker.isEmpty
  | c :: t => marker.isPrefixOf (c :: t) || listContainsSeq marker t

/-- Python's `marker in s` on strings. -/
def strContainsSub (s marker : String) : Bool :=
  listContainsSeq marker.toList s.toList

/-- Python `str.isdigit` restricted to ASCII digits (the only ones a
`content-length` header can carry). -/
def pyIsDigit (s : String) : Bool :=
  s.length > 0 && s.toList.all Char.isDigit

/-- Decimal value of a digit string (Python `int(s)` for digit-only `s`). -/
def digitsToNat (l : List Char) : Nat :=
  l.foldl (fun acc c => acc * 10 + (c.toNat - 48)) 0

/-- The `content_size` computation of `capture_url_sync`
(capture.py lines 990-1005): use the `content-length` header when present
and digit-only, otherwise `len(page.content())`; `pageLen = none` models
`page.content()` raising, which the enclosing `except` maps to 0. -/
def contentSizeOf (hdr : Option String) (pageLen : Option Nat) : Nat :=
  match hdr with
  | some s => if pyIsDigit s then digitsToNat s.toList else pageLen.getD 0
  | none => pageLen.getD 0

/-- Characters Python's `\w` class keeps in a filename (ASCII fragment;
the claims never feed non-ASCII URLs through this). -/
def isWordChar (c : Char) : Bool :=
  c.isAlphanum || c = '_'

/-- Left-to-right non-overlapping replacement of the pattern `pat` by
`rep` (Python `str.replace`), driven by a fuel argument so that the
definition is structurally recursive and kernel-reducible. -/
def replaceFuel (pat rep : List Char) : Nat → List Char → List Char
  | 0, l => l
  | _, [] => []
  | fuel + 1, c :: t =>
    if !pat.isEmpty && pat.isPrefixOf (c :: t) then
      rep ++ replaceFuel pat rep fuel (t.drop (pat.length - 1))
    else
      c :: replaceFuel pat rep fuel t

/-- Python `s.replace(pat, rep)` for non-empty patterns. -/
def pyReplace (s pat rep : String) : String :=
  String.mk (replaceFuel pat.toList rep.toList s.toList.length s.toList)

/-- The URL-derived screenshot filename of `capture_url_sync`
(capture.py lines 925-926): replace `://` and `/` by `_`, replace every
character outside `[\w\-_.]` by `_`, truncate to 240 characters, append
`.jpg`. -/
def safeFilename (url : String) : String :=
  let s := pyReplace (pyReplace url "://" "_") "/" "_"
  let cleaned := s.toList.map
    (fun c => if isWordChar c || c = '-' || c = '.' then c else '_')
  String.mk (cleaned.take 240) ++ ".jpg"

/-- The absolute per-attempt wall-clock ceiling of `capture_url_sync`
(capture.py line 916): `min(120, timeout * 3)`. -/
def absolute_timeout (timeout : Nat) : Nat :=
  min 120 (timeout * 3)

/-- The error message written at each absolute-timeout check
(capture.py lines 1056, 1071, 1125). -/
def timeoutMessage (timeout : Nat) : String :=
  "处理超时: 超过" ++ toString (absolute_timeout timeout) ++ "秒"

/-- Outcome of the `page.goto` navigation call (capture.py lines 974-978):
Python `None` (no response object), a response with a status code, or a
raised exception carrying a message. -/
inductive NavOutcome
  | noResponse
  | gotResponse (status : Nat)
  | raised (msg : String)
deriving DecidableEq, Repr

/-- Environment of one `capture_url_sync` attempt: everything the external
browser capability, network, and clock contribute. -/
structure CaptureEnv where
  /-- `some msg`: `sync_playwright()` / `chromium.launch` / `new_context` /
  `new_page` raised with message `msg`, reaching the outer
  `except Exception` handler (capture.py line 1195). -/
  launchError : Option String := none
  /-- Outcome of the navigation call. -/
  nav : NavOutcome := .gotResponse 200
  /-- The `content-length` response-header value, if the header exists. -/
  contentLengthHeader : Option String := none
  /-- `len(page.content())`; `none` models `page.content()` raising. -/
  pageContentLength : Option Nat := none
  /-- Elapsed seconds at the first absolute-timeout check (line 1054). -/
  elapsedAfterDomWait : Nat := 0
  /-- Elapsed seconds at the second absolute-timeout check (line 1069). -/
  elapsedAfterIdleWait : Nat := 0
  /-- Elapsed seconds at the third absolute-timeout check (line 1123). -/
  elapsedAfterScroll : Nat := 0
  /-- Emergency screenshot at the third check (line 1128): `some n` = the
  call returned and wrote an `n`-byte file. -/
  lastChanceShot : Option Nat := none
  /-- `page.title()` result; `none` models the metadata-extraction `try`
  raising (swallowed, fields left unset). -/
  pageTitle : Option String := none
  /-- Final screenshot (line 1177): `some n` = wrote an `n`-byte file. -/
  finalShot : Option Nat := none
  /-- Exception message of the final screenshot when it fails. -/
  finalShotError : String := ""
  /-- Elapsed seconds when control reaches the tail of the function
  (line 1201). -/
  elapsedTotal : Nat := 0
deriving DecidableEq, Repr

/-- Result of one embedded capture attempt: the returned dictionary plus
the screenshot file written to disk, if any. -/
structure CaptureOutcome where
  result : CaptureResult
  written : Option Nat
deriving DecidableEq, Repr

/-- Embedding of `capture_url_sync` (capture.py lines 877-1210).

Return paths, in source order:
* outer launch exception → `error = str(e)`, falls through to the tail,
  `processing_time` set;
* `response is None` → `error = "页面无响应"`, early `return` inside the
  `with` block, so the `processing_time` assignment after the `try` is
  skipped;
* navigation exception → message classified by substring into a
  connection-error category, early `return`, no `processing_time`;
* three absolute-timeout checks → early `return`, no `processing_time`;
  only the third attempts a last screenshot and, on its success, sets
  `success = True` and `partial = True`;
* final screenshot → `success = True` on success, `error` on failure,
  then falls through to the tail where `processing_time` is set. -/
def capture_url_sync (url : String) (timeout : Nat) (env : CaptureEnv)
    (now : String) : CaptureOutcome :=
  let filename := safeFilename url
  let A := absolute_timeout timeout
  let md0 : CaptureResult :=
    { url := url, screenshot := filename, timestamp := now, success := false }
  match env.launchError with
  | some msg =>
    { result :=
        { md0 with
          error := some msg,
          processing_time := some env.elapsedTotal },
      written := none }
  | none =>
    match env.nav with
    | .noResponse =>
      { result := { md0 with error := some "页面无响应", success := false },
        written := none }
    | .raised msg =>
      let md1 :=
        if strContainsSub msg "ERR_CONNECTION_REFUSED" then
          { md0 with
            error := some "连接被拒绝：服务器不可用或拒绝连接",
            connection_error := some .REFUSED }
        else if strContainsSub msg "ERR_NAME_NOT_RESOLVED" then
          { md0 with
            error := some "域名解析失败：域名可能不存在",
            connection_error := some .DNS_FAILED }
        else if strContainsSub msg "ERR_CONNECTION_TIMED_OUT" then
          { md0 with
            error := some "连接超时：服务器响应时间过长",
            connection_error := some .TIMEOUT }
        else if strContainsSub msg "ERR_SSL_PROTOCOL_ERROR" then
          { md0 with
            error := some "SSL协议错误：无法建立安全连接",
            connection_error := some .SSL_ERROR }
        else
          { md0 with error := some ("导航错误: " ++ msg) }
      { result := { md1 with success := false }, written := none }
    | .gotResponse status =>
      let md1 :=
        { md0 with
          status_code := some status,
          content_size :=
            some (contentSizeOf env.contentLengthHeader env.pageContentLength) }
      if A < env.elapsedAfterDomWait then
        { result := { md1 with error := some (timeoutMessage timeout) },
          written := none }
      else if A < env.elapsedAfterIdleWait then
        { result := { md1 with error := some (timeoutMessage timeout) },
          written := none }
      else if A < env.elapsedAfterScroll then
        match env.lastChanceShot with
        | some n =>
          { result :=
              { md1 with
                error := some (timeoutMessage timeout),
                success := true,
                isPartial := true },
            written := some n }
        | none =>
          { result := { md1 with error := some (timeoutMessage timeout) },
            written := none }
      else
        let md2 :=
          match env.pageTitle with
          | some t => { md1 with title := some t }
          | none => md1
        match env.finalShot with
        | some n =>
          { result :=
              { md2 with
                success := true,
                processing_time := some env.elapsedTotal },
            written := some n }
        | none =>
          { result :=
              { md2 with
                error := some ("截图错误: " ++ env.finalShotError),
                processing_time := some env.elapsedTotal },
            written := none }

/-! ## Retry wrapper (src/eyeurl/capture.py, `worker_process`)

`worker_process` invokes the capture unit up to `retry_count` times for
one URL.  The environment is the sequence of per-attempt results
(`attempts i` = the dictionary returned by the `i`-th `capture_url_sync`
call, 0-based).  The backoff sleeps have no observable effect on the
returned value and are not modelled. -/

/-- Python truthiness of `result.get("error")`: an absent key and an
empty string are both falsy. -/
def pyTruthyError (r : CaptureResult) : Bool :=
  match r.error with
  | none => false
  | some s => !(s == "")

/-- `result["meta_data"]["retry_attempts"] = n`
(capture.py line 1282). -/
def set_retry_attempts (r : CaptureResult) (n : Nat) : CaptureResult :=
  { r with meta_data := { r.meta_data with retry_attempts := some n } }

/-- One iteration of the `for attempt in range(retry_count)` loop of
`worker_process` (capture.py lines 1238-1292), fuel-recursive.  Branches,
in source order: a connection error with retries remaining → back off and
retry; a falsy `error` or the last attempt → return (recording
`retry_attempts = attempt + 1` when a retry succeeded); otherwise → back
off and retry.  The fuel is always instantiated to `retry_count`, which
the loop never exhausts before returning. -/
def workerLoop (attempts : Nat → CaptureResult) (retry_count : Nat) :
    Nat → Nat → CaptureResult
  | 0, attempt => attempts attempt
  | fuel + 1, attempt =>
    if (attempts attempt).connection_error.isSome ∧
        attempt < retry_count - 1 then
      workerLoop attempts retry_count fuel (attempt + 1)
    else if pyTruthyError (attempts attempt) = false ∨
        attempt = retry_count - 1 then
      if 0 < attempt ∧ pyTruthyError (attempts attempt) = false then
        set_retry_attempts (attempts attempt) (attempt + 1)
      else (attempts attempt)
    else
      workerLoop attempts retry_count fuel (attempt + 1)

/-- Embedding of `worker_process` (capture.py lines 1213-1295).  For
`retry_count = 0` the Python loop body never runs and the trailing
`return result` raises `NameError`; this is modelled as `none`. -/
def worker_process (attempts : Nat → CaptureResult) (retry_count : Nat) :
    Option CaptureResult :=
  if retry_count = 0 then none
  else some (workerLoop attempts retry_count retry_count 0)

/-! ## Parallel orchestrator (src/eyeurl/capture.py, `capture_urls_parallel`)

The unpaginated path (`page_size is None`) is modelled:
`current_urls = urls`.  One task is dispatched per URL, in order; the
environment gives, per task, the outcome of the bounded
`result_obj.get(timeout=10)` fetch.  The shared `success` counter and the
pre-collection value of the `failed` counter are driven by the completion
callbacks during the run and enter the model as parameters. -/

/-- Outcome of fetching one dispatched task's result
(capture.py lines 1557-1612): the worker's dictionary, a
`multiprocessing.TimeoutError`, or any other exception with its text. -/
inductive FetchOutcome
  | fetched (r : CaptureResult)
  | fetchTimeout
  | fetchRaised (msg : String)
deriving DecidableEq, Repr

/-- The bounded per-task result-fetch wait in seconds
(capture.py line 1555). -/
def result_timeout : Nat := 10

/-- The synthesized error record of the orchestrator (capture.py lines
1581-1592, 1598-1609, 1621-1632).  The Python dict literal has no
`success` key; reading it yields a falsy `None`, modelled as `false`.
Its `response_headers: {}` entry is omitted from the record type. -/
def synthesized_result (url now err : String) : CaptureResult :=
  { url := url, title := some "", status_code := some 0,
    content_size := some 0, screenshot := "", timestamp := now,
    error := some err, success := false, processing_time := some 0,
    meta_data := {} }

/-- The result-collection loop of `capture_urls_parallel`
(capture.py lines 1557-1612): one record is appended per dispatched task;
a fetch timeout synthesizes a record with the timeout message (and does
not touch the failure counter — the comment at line 1611 notwithstanding,
only the generic-exception branch increments it); any other exception
synthesizes a record with the exception text and increments the shared
`failed` counter. -/
def collectResults (tasks : List (String × FetchOutcome)) (now : String)
    (failed : Nat) : List CaptureResult × Nat :=
  match tasks with
  | [] => ([], failed)
  | (url, o) :: rest =>
    match o with
    | .fetched r =>
      let p := collectResults rest now failed
      (r :: p.1, p.2)
    | .fetchTimeout =>
      let p := collectResults rest now failed
      (synthesized_result url now "获取任务结果超时" :: p.1, p.2)
    | .fetchRaised msg =>
      let p := collectResults rest now (failed + 1)
      (synthesized_result url now msg :: p.1, p.2)

/-- The reconciliation pass (capture.py lines 1614-1633): when fewer
results than input URLs were collected, append a synthesized record for
every input URL occurrence absent from the collected `url` fields.  The
`processed_urls` set is computed once, before the appends. -/
def reconcile (urls : List String) (results : List CaptureResult)
    (now : String) : List CaptureResult :=
  if results.length < urls.length then
    let processed := results.map (fun r => r.url)
    results ++ (urls.filter (fun u => !(processed.contains u))).map
      (fun u => synthesized_result u now "任务结果丢失")
  else results

/-- The post-pass attaching `batch_info` to every record's `meta_data`
(capture.py lines 1666-1669). -/
def inject_batch_info (results : List CaptureResult) (bi : BatchInfo) :
    List CaptureResult :=
  results.map (fun r =>
    { r with meta_data := { r.meta_data with batch_info := some bi } })

/-- Embedding of the unpaginated `capture_urls_parallel`
(capture.py lines 1343-1671): collect one result per dispatched task,
reconcile against the input URL list, then attach the batch statistics to
every record. -/
def capture_urls_parallel (urls : List String)
    (outcomes : List FetchOutcome) (now : String)
    (successCount failed0 : Nat) : List CaptureResult :=
  let collected := collectResults (urls.zip outcomes) now failed0
  let results := reconcile urls collected.1 now
  let bi : BatchInfo :=
    { total_urls := urls.length, total_success := successCount,
      total_failed := collected.2 }
  inject_batch_info results bi

/-! ## URL-file reader (src/eyeurl/capture.py, `read_urls`)

The per-line loop (capture.py lines 61-81) is modelled on the decoded
line list (`content.splitlines()`); lines are `List Char` so that
Python's character-level cleaning is explicit.  Python's `str.strip`
whitespace set is approximated by its ASCII members — every non-ASCII
character is removed by the printable filter before the appended-URL
checks, so the approximation does not affect the stated invariant. -/

/-- ASCII whitespace stripped by Python `str.strip()` /
tested by `str.isspace()`. -/
def pyWhitespace : List Char :=
  [' ', '\t', '\n', '\r', Char.ofNat 11, Char.ofNat 12]

/-- Python `s.strip(chars)`: drop the given characters from both ends. -/
def pyStripChars (chars : List Char) (s : List Char) : List Char :=
  ((s.dropWhile (fun c => chars.contains c)).reverse.dropWhile
    (fun c => chars.contains c)).reverse

/-- Python `line.strip()`. -/
def pyStripWS (s : List Char) : List Char :=
  pyStripChars pyWhitespace s

/-- Python `line.strip('\x27"')` (capture.py line 68). -/
def pyStripQuotes (s : List Char) : List Char :=
  pyStripChars [Char.ofNat 39, '"'] s

/-- The character class kept by `re.sub(r'[^\x20-\x7E]', '', url)`
(capture.py line 71). -/
def isPrintableAscii (c : Char) : Bool :=
  32 ≤ c.toNat && c.toNat ≤ 126

/-- `url.startswith(('http://', 'https://'))`. -/
def startsWithScheme (l : List Char) : Bool :=
  "http://".toList.isPrefixOf l || "https://".toList.isPrefixOf l

/-- Python `s.isspace()`: non-empty and all whitespace. -/
def pyIsSpace (l : List Char) : Bool :=
  !l.isEmpty && l.all (fun c => pyWhitespace.contains c)

/-- The cleaning steps applied to a stripped line (capture.py lines
68-71): strip quotes, then delete every character outside printable
ASCII. -/
def cleanedUrl (line : List Char) : List Char :=
  (pyStripQuotes line).filter isPrintableAscii

/-- The scheme-defaulting validation step (capture.py lines 74-78):
prefix `http://` to a non-empty schemeless URL. -/
def validatedUrl (validate : Bool) (url : List Char) : List Char :=
  if validate && !startsWithScheme url && !url.isEmpty && !pyIsSpace url
  then "http://".toList ++ url
  else url

/-- One iteration of the line loop of `read_urls` (capture.py lines
61-81): strip whitespace; skip blank and `#` lines; clean; validate;
append only URLs that survive non-empty and not all-whitespace. -/
def processLine (validate : Bool) (rawLine : List Char) :
    Option (List Char) :=
  if (pyStripWS rawLine).isEmpty || (pyStripWS rawLine).head? = some '#'
  then none
  else
    if !(validatedUrl validate (cleanedUrl (pyStripWS rawLine))).isEmpty &&
        !pyIsSpace (validatedUrl validate (cleanedUrl (pyStripWS rawLine)))
    then some (validatedUrl validate (cleanedUrl (pyStripWS rawLine)))
    else none

/-- Embedding of the line-processing phase of `read_urls` over the
decoded line list. -/
def read_urls (lines : List (List Char)) (validate : Bool) :
    List (List Char) :=
  lines.filterMap (processLine validate)

/-! ## Concrete values used by counterexamples and witnesses -/

/-- A fully successful first-attempt result: no `error`, no
`connection_error`, `success = True`, fresh `meta_data`. -/
def c4SuccessResult : CaptureResult :=
  { url := "http://example.com", screenshot := "http_example.com.jpg",
    timestamp := "2024-01-01T00:00:00", success := true }

/-- A failed first attempt for the C4 witness. -/
def c4FailResult : CaptureResult :=
  { url := "http://example.com", screenshot := "http_example.com.jpg",
    timestamp := "2024-01-01T00:00:00",
    error := some "导航错误: net::ERR_FAILED", success := false }

/-- Attempt sequence for the C4 witness: first attempt fails, every
later attempt succeeds. -/
def c4Attempts : Nat → CaptureResult :=
  fun i => if i = 0 then c4FailResult else c4SuccessResult

/-- A worker result for `http://a.com`, used by the C1 witness. -/
def c1ResultA : CaptureResult :=
  { url := "http://a.com", screenshot := "http_a.com.jpg",
    timestamp := "2024-01-01T00:00:00", success := true }

/-! ### Lemmas about the availability partition -/

theorem pyDictInsert_fresh (d : List (String × Option String)) (k : String)
    (v : Option String) (h : ∀ p ∈ d, p.1 ≠ k) :
    pyDictInsert d k v = d ++ [(k, v)] := by
  unfold pyDictInsert
  rw [if_neg]
  simp only [List.any_eq_true, decide_eq_true_eq, not_exists]
  rintro p ⟨hp, he⟩
  exact h p hp he

theorem availabilityFold_spec (entries : List (String × Bool × Option String)) :
    ∀ (acc : List String) (inacc : List (String × Option String)),
      (entries.map (fun e => e.1)).Nodup →
      (∀ e ∈ entries, e.1 ∉ acc) →
      (∀ e ∈ entries, ∀ p ∈ inacc, p.1 ≠ e.1) →
      (availabilityFold entries acc inacc).1.length
          + (availabilityFold entries acc inacc).2.length
        = acc.length + inacc.length + entries.length ∧
      (∀ u ∈ (availabilityFold entries acc inacc).1,
        u ∈ acc ∨ ∃ s, (u, true, s) ∈ entries) ∧
      (∀ p ∈ (availabilityFold entries acc inacc).2,
        p ∈ inacc ∨ (p.1, false, p.2) ∈ entries) := by
  induction entries with
  | nil =>
    intro acc inacc _ _ _
    refine ⟨by simp [availabilityFold], ?_, ?_⟩
    · intro u hu; exact Or.inl (by simpa [availabilityFold] using hu)
    · intro p hp; exact Or.inl (by simpa [availabilityFold] using hp)
  | cons e rest ih =>
    obtain ⟨url, isAcc, reason⟩ := e
    intro acc inacc hnd hacc hinacc
    rw [List.map_cons] at hnd
    have hnd' := List.nodup_cons.mp hnd
    have hndRest : (rest.map (fun e => e.1)).Nodup := hnd'.2
    have hheadFresh : ∀ e ∈ rest, (e.1 : String) ≠ url := by
      intro e he hcontra
      exact hnd'.1 (List.mem_map.mpr ⟨e, he, hcontra⟩)
    cases isAcc with
    | true =>
      have step : availabilityFold ((url, true, reason) :: rest) acc inacc
          = availabilityFold rest (acc ++ [url]) inacc := by
        simp [availabilityFold]
      have ih' := ih (acc ++ [url]) inacc hndRest
        (by
          intro e he
          simp only [List.mem_append, List.mem_singleton, not_or]
          exact ⟨hacc e (List.mem_cons_of_mem _ he), hheadFresh e he⟩)
        (by
          intro e he p hp
          exact hinacc e (List.mem_cons_of_mem _ he) p hp)
      rw [step]
      refine ⟨?_, ?_, ?_⟩
      · have := ih'.1
        simp only [List.length_append, List.length_cons, List.length_nil] at this ⊢
        omega
      · intro u hu
        rcases ih'.2.1 u hu with h | ⟨s, hs⟩
        · rcases List.mem_append.mp h with h | h
          · exact Or.inl h
          · right
            refine ⟨reason, ?_⟩
            simp only [List.mem_singleton] at h
            subst h
            exact List.mem_cons_self _ _
        · exact Or.inr ⟨s, List.mem_cons_of_mem _ hs⟩
      · intro p hp
        rcases ih'.2.2 p hp with h | h
        · exact Or.inl h
        · exact Or.inr (List.mem_cons_of_mem _ h)
    | false =>
      have hins : pyDictInsert inacc url reason = inacc ++ [(url, reason)] :=
        pyDictInsert_fresh inacc url reason
          (fun p hp => hinacc (url, false, reason) (List.mem_cons_self _ _) p hp)
      have step : availabilityFold ((url, false, reason) :: rest) acc inacc
          = availabilityFold rest acc (inacc ++ [(url, reason)]) := by
        simp [availabilityFold, hins]
      have ih' := ih acc (inacc ++ [(url, reason)]) hndRest
        (fun e he => hacc e (List.mem_cons_of_mem _ he))
        (by
          intro e he p hp
          rcases List.mem_append.mp hp with h | h
          · exact hinacc e (List.mem_cons_of_mem _ he) p h
          · simp only [List.mem_singleton] at h
            subst h
            exact (hheadFresh e he).symm)
      rw [step]
      refine ⟨?_, ?_, ?_⟩
      · have := ih'.1
        simp only [List.length_append, List.length_cons, List.length_nil] at this ⊢
        omega
      · intro u hu
        rcases ih'.2.1 u hu with h | ⟨s, hs⟩
        · exact Or.inl h
        · exact Or.inr ⟨s, List.mem_cons_of_mem _ hs⟩
      · intro p hp
        rcases ih'.2.2 p hp with h | h
        · rcases List.mem_append.mp h with h | h
          · exact Or.inl h
          · right
            simp only [List.mem_singleton] at h
            subst h
            exact List.mem_cons_self _ _
        · exact Or.inr (List.mem_cons_of_mem _ h)

/-! ### Claim theorems: availability prober -/

/-- C5 counterexample: with a duplicated inaccessible URL the inaccessible
dict collapses the two occurrences into one key, so
`len(accessible) + len(inaccessible)` is 1, not the input length 2. -/
theorem check_urls_availability_duplicate_counterexample :
    (check_urls_availability ["http://a.com", "http://a.com"]
        [(false, some "连接错误或超时"), (false, some "连接错误或超时")]).1.length
      + (check_urls_availability ["http://a.com", "http://a.com"]
        [(false, some "连接错误或超时"), (false, some "连接错误或超时")]).2.length = 1 ∧
    ¬ ((check_urls_availability ["http://a.com", "http://a.com"]
        [(false, some "连接错误或超时"), (false, some "连接错误或超时")]).1.length
      + (check_urls_availability ["http://a.com", "http://a.com"]
        [(false, some "连接错误或超时"), (false, some "连接错误或超时")]).2.length = 2) := by
  decide

/-- C5 (amended): for duplicate-free input URL sequences, the availability
partition of `check_urls_availability` is complete
(`len(accessible) + len(inaccessible) = len(input_urls)`) and the
accessible list and the inaccessible map are disjoint by URL string. -/
theorem check_urls_availability_partition (urls : List String)
    (outcomes : List (Bool × Option String))
    (hnd : urls.Nodup) (hlen : outcomes.length = urls.length) :
    (check_urls_availability urls outcomes).1.length
        + (check_urls_availability urls outcomes).2.length = urls.length ∧
    ∀ u ∈ (check_urls_availability urls outcomes).1,
      ∀ p ∈ (check_urls_availability urls outcomes).2, u ≠ p.1 := by
  have hmapfst : (urls.zip outcomes).map (fun e => e.1) = urls :=
    List.map_fst_zip urls outcomes (le_of_eq hlen.symm)
  have hlenEntries : (urls.zip outcomes).length = urls.length := by
    simp [List.length_zip, hlen]
  have hspec := availabilityFold_spec (urls.zip outcomes) [] []
    (by rw [hmapfst]; exact hnd)
    (by intro e _; exact List.not_mem_nil _)
    (by intro e _ p hp; exact absurd hp (List.not_mem_nil _))
  refine ⟨?_, ?_⟩
  · have h := hspec.1
    simp only [List.length_nil, Nat.zero_add] at h
    rw [hlenEntries] at h
    exact h
  · intro u hu p hp heq
    rcases hspec.2.1 u hu with h | ⟨s, hs⟩
    · exact absurd h (List.not_mem_nil _)
    rcases hspec.2.2 p hp with h | hmem
    · exact absurd h (List.not_mem_nil _)
    have hinj := List.inj_on_of_nodup_map (f := fun e => e.1)
      (l := urls.zip outcomes) (by rw [hmapfst]; exact hnd)
    have : (u, true, s) = (p.1, false, p.2) := hinj hs hmem (by simpa using heq)
    simpa using congrArg (fun q => q.2.1) this

/-- Witness for the C5 theorem at a concrete duplicate-free input. -/
theorem check_urls_availability_partition_witness :
    (check_urls_availability ["http://a.com", "http://b.com"]
        [(true, none), (false, some "连接错误或超时")]).1.length
      + (check_urls_availability ["http://a.com", "http://b.com"]
        [(true, none), (false, some "连接错误或超时")]).2.length = 2 ∧
    ∀ u ∈ (check_urls_availability ["http://a.com", "http://b.com"]
        [(true, none), (false, some "连接错误或超时")]).1,
      ∀ p ∈ (check_urls_availability ["http://a.com", "http://b.com"]
        [(true, none), (false, some "连接错误或超时")]).2, u ≠ p.1 :=
  check_urls_availability_partition _ _ (by decide) (by decide)

/-- C6 counterexample: an exception matched only by the catch-all
`except (..., Exception)` clause — e.g. `aiohttp.ServerDisconnectedError`,
which is none of connection failure, timeout, DNS failure, or malformed
URL — still yields `accessible == false`, refuting the claim's "only
connection failure, timeout, DNS failure, or malformed URL yield
accessible == false". -/
theorem check_url_availability_catch_all_counterexample :
    check_url_availability_async (.raised .otherExn) (.raised .otherExn)
      (.raised .otherExn) = (false, some "连接错误或超时") := by
  decide

/-- C6 (amended): any HTTP response at any of the three probe stages
(HEAD, fallback GET, protocol-swapped GET) is classified accessible
regardless of status code, and an SSL-certificate or excessive-redirect
failure of the final stage is also classified accessible; `accessible ==
false` exactly when all three stages raise and the final (re-raised)
exception is neither an SSL error nor an excessive-redirect error —
i.e. a connection failure, timeout, DNS failure, malformed URL, or any
other exception caught by the catch-all clause. -/
theorem check_url_availability_classification
    (headReq getReq altGetReq : StageOutcome) :
    (check_url_availability_async headReq getReq altGetReq).1 = false ↔
      ∃ e1 e2 e3, headReq = .raised e1 ∧ getReq = .raised e2 ∧
        altGetReq = .raised e3 ∧
        e3 ≠ ProbeExn.sslCertError ∧ e3 ≠ ProbeExn.tooManyRedirects := by
  constructor
  · intro h
    cases headReq with
    | response st => simp [check_url_availability_async] at h
    | raised e1 =>
      cases getReq with
      | response st => simp [check_url_availability_async] at h
      | raised e2 =>
        cases altGetReq with
        | response st => simp [check_url_availability_async] at h
        | raised e3 =>
          refine ⟨e1, e2, e3, rfl, rfl, rfl, ?_, ?_⟩ <;>
            rintro rfl <;> simp [check_url_availability_async] at h
  · rintro ⟨e1, e2, e3, rfl, rfl, rfl, h1, h2⟩
    cases e3 <;> simp [check_url_availability_async] <;> first
      | rfl
      | exact absurd rfl h1
      | exact absurd rfl h2

/-! ### Claim theorems: page capture unit -/

theorem str_append_ne_empty (a b : String) (h : a ≠ "") : a ++ b ≠ "" := by
  intro hc
  apply h
  have hdata : a.data ++ b.data = [] := by
    have := congrArg String.data hc
    simpa [String.data_append] using this
  have : a.data = [] := (List.append_eq_nil.mp hdata).1
  cases a
  simpa [String.ext_iff] using this

theorem timeoutMessage_ne_empty (t : Nat) : timeoutMessage t ≠ "" := by
  unfold timeoutMessage
  exact str_append_ne_empty _ _ (str_append_ne_empty _ _ (by decide))

/-- C2: if a capture attempt reports `success == true`, a screenshot file
was written and is non-empty.  The two hypotheses state the contract of
the external Playwright capability (out of scope per the spec): a
`page.screenshot` call that returns without raising has written an image
file of a strictly positive number of bytes. -/
theorem capture_success_implies_nonempty_screenshot
    (url : String) (timeout : Nat) (env : CaptureEnv) (now : String)
    (hlast : ∀ n, env.lastChanceShot = some n → 0 < n)
    (hfinal : ∀ n, env.finalShot = some n → 0 < n)
    (hsucc : (capture_url_sync url timeout env now).result.success = true) :
    ∃ n, (capture_url_sync url timeout env now).written = some n ∧ 0 < n := by
  obtain ⟨le, nav, clh, pcl, e1, e2, e3, lcs, pt, fs, fse, et⟩ := env
  cases le with
  | some msg => simp [capture_url_sync] at hsucc
  | none =>
    cases nav with
    | noResponse => simp [capture_url_sync] at hsucc
    | raised msg => simp [capture_url_sync] at hsucc
    | gotResponse status =>
      by_cases hc1 : absolute_timeout timeout < e1
      · simp [capture_url_sync, hc1] at hsucc
      by_cases hc2 : absolute_timeout timeout < e2
      · simp [capture_url_sync, hc1, hc2] at hsucc
      by_cases hc3 : absolute_timeout timeout < e3
      · cases lcs with
        | some n =>
          exact ⟨n, by simp [capture_url_sync, hc1, hc2, hc3],
            hlast n rfl⟩
        | none => simp [capture_url_sync, hc1, hc2, hc3] at hsucc
      · cases fs with
        | some n =>
          refine ⟨n, ?_, hfinal n rfl⟩
          cases pt <;> simp [capture_url_sync, hc1, hc2, hc3]
        | none =>
          cases pt <;> simp [capture_url_sync, hc1, hc2, hc3] at hsucc

/-- Witness for C2 at a concrete environment whose final screenshot call
succeeds with a 4096-byte file. -/
theorem capture_success_implies_nonempty_screenshot_witness :
    ∃ n, (capture_url_sync "http://example.com" 10
      { nav := .gotResponse 200, finalShot := some 4096 }
      "2024-01-01T00:00:00").written = some n ∧ 0 < n :=
  capture_success_implies_nonempty_screenshot _ _ _ _
    (fun n h => by simp at h)
    (fun n h => by simp at h; omega)
    (by decide)

/-- C3: if a capture attempt reports `success == false`, its `error`
field is set and non-empty.  The hypothesis covers the one path where the
error text comes verbatim from an external exception (`str(e)` of a
launch-phase exception, capture.py line 1198): the environment is assumed
not to produce an exception whose message stringifies to the empty
string. -/
theorem capture_failure_implies_error
    (url : String) (timeout : Nat) (env : CaptureEnv) (now : String)
    (hlaunch : ∀ m, env.launchError = some m → m ≠ "")
    (hfail : (capture_url_sync url timeout env now).result.success = false) :
    ∃ s, (capture_url_sync url timeout env now).result.error = some s ∧
      s ≠ "" := by
  obtain ⟨le, nav, clh, pcl, e1, e2, e3, lcs, pt, fs, fse, et⟩ := env
  cases le with
  | some msg =>
    exact ⟨msg, by simp [capture_url_sync], hlaunch msg rfl⟩
  | none =>
    cases nav with
    | noResponse =>
      exact ⟨"页面无响应", by simp [capture_url_sync], by decide⟩
    | raised msg =>
      by_cases h1 : strContainsSub msg "ERR_CONNECTION_REFUSED"
      · exact ⟨"连接被拒绝：服务器不可用或拒绝连接",
          by simp [capture_url_sync, h1], by decide⟩
      by_cases h2 : strContainsSub msg "ERR_NAME_NOT_RESOLVED"
      · exact ⟨"域名解析失败：域名可能不存在",
          by simp [capture_url_sync, h1, h2], by decide⟩
      by_cases h3 : strContainsSub msg "ERR_CONNECTION_TIMED_OUT"
      · exact ⟨"连接超时：服务器响应时间过长",
          by simp [capture_url_sync, h1, h2, h3], by decide⟩
      by_cases h4 : strContainsSub msg "ERR_SSL_PROTOCOL_ERROR"
      · exact ⟨"SSL协议错误：无法建立安全连接",
          by simp [capture_url_sync, h1, h2, h3, h4], by decide⟩
      · exact ⟨"导航错误: " ++ msg,
          by simp [capture_url_sync, h1, h2, h3, h4],
          str_append_ne_empty _ _ (by decide)⟩
    | gotResponse status =>
      by_cases hc1 : absolute_timeout timeout < e1
      · exact ⟨timeoutMessage timeout, by simp [capture_url_sync, hc1],
          timeoutMessage_ne_empty timeout⟩
      by_cases hc2 : absolute_timeout timeout < e2
      · exact ⟨timeoutMessage timeout,
          by simp [capture_url_sync, hc1, hc2],
          timeoutMessage_ne_empty timeout⟩
      by_cases hc3 : absolute_timeout timeout < e3
      · cases lcs with
        | some n => simp [capture_url_sync, hc1, hc2, hc3] at hfail
        | none =>
          exact ⟨timeoutMessage timeout,
            by simp [capture_url_sync, hc1, hc2, hc3],
            timeoutMessage_ne_empty timeout⟩
      · cases fs with
        | some n =>
          cases pt <;> simp [capture_url_sync, hc1, hc2, hc3] at hfail
        | none =>
          refine ⟨"截图错误: " ++ fse, ?_, str_append_ne_empty _ _ (by decide)⟩
          cases pt <;> simp [capture_url_sync, hc1, hc2, hc3]

/-- Witness for C3 at a concrete environment whose browser launch raises. -/
theorem capture_failure_implies_error_witness :
    ∃ s, (capture_url_sync "http://example.com" 10
      { launchError := some "Browser launch failed" }
      "2024-01-01T00:00:00").result.error = some s ∧ s ≠ "" :=
  capture_failure_implies_error _ _ _ _
    (fun m h => by simp at h; subst h; decide)
    (by decide)

/-- C7 counterexample: with page timeout 10 the ceiling is 30 seconds;
when the first mid-pipeline check (after the DOM-content wait) sees 1000
elapsed seconds, the attempt returns with a bare timeout error — no
best-effort screenshot is attempted (none written although the
environment's screenshot call would have succeeded) and the result is not
marked partial, refuting "whenever elapsed time exceeds this ceiling at
any mid-pipeline check the unit attempts one last best-effort screenshot
(marking the result partial)". -/
theorem capture_timeout_no_partial_counterexample :
    (capture_url_sync "http://example.com" 10
      { nav := .gotResponse 200, elapsedAfterDomWait := 1000,
        elapsedAfterIdleWait := 1000, elapsedAfterScroll := 1000,
        lastChanceShot := some 2048, finalShot := some 4096 }
      "2024-01-01T00:00:00").result.isPartial = false ∧
    (capture_url_sync "http://example.com" 10
      { nav := .gotResponse 200, elapsedAfterDomWait := 1000,
        elapsedAfterIdleWait := 1000, elapsedAfterScroll := 1000,
        lastChanceShot := some 2048, finalShot := some 4096 }
      "2024-01-01T00:00:00").written = none ∧
    (capture_url_sync "http://example.com" 10
      { nav := .gotResponse 200, elapsedAfterDomWait := 1000,
        elapsedAfterIdleWait := 1000, elapsedAfterScroll := 1000,
        lastChanceShot := some 2048, finalShot := some 4096 }
      "2024-01-01T00:00:00").result.success = false ∧
    (capture_url_sync "http://example.com" 10
      { nav := .gotResponse 200, elapsedAfterDomWait := 1000,
        elapsedAfterIdleWait := 1000, elapsedAfterScroll := 1000,
        lastChanceShot := some 2048, finalShot := some 4096 }
      "2024-01-01T00:00:00").result.error = some (timeoutMessage 10) := by
  decide

/-- C7 (amended): the absolute per-attempt ceiling is `min(120, 3×t)`;
the attempt checks elapsed time against it at three mid-pipeline points
and returns immediately when it is exceeded, but only the third check
(after the lazy-load scroll) attempts one last best-effort screenshot and
marks the result partial on its success — the first two checks return
with a bare timeout error and no screenshot. -/
theorem capture_absolute_timeout_checks
    (url : String) (timeout : Nat) (env : CaptureEnv) (now : String)
    (status : Nat) (hle : env.launchError = none)
    (hnav : env.nav = .gotResponse status) :
    absolute_timeout timeout = min 120 (timeout * 3) ∧
    (absolute_timeout timeout < env.elapsedAfterDomWait →
      (capture_url_sync url timeout env now).result.error
          = some (timeoutMessage timeout) ∧
      (capture_url_sync url timeout env now).result.success = false ∧
      (capture_url_sync url timeout env now).result.isPartial = false ∧
      (capture_url_sync url timeout env now).written = none) ∧
    (env.elapsedAfterDomWait ≤ absolute_timeout timeout →
      absolute_timeout timeout < env.elapsedAfterIdleWait →
      (capture_url_sync url timeout env now).result.error
          = some (timeoutMessage timeout) ∧
      (capture_url_sync url timeout env now).result.success = false ∧
      (capture_url_sync url timeout env now).result.isPartial = false ∧
      (capture_url_sync url timeout env now).written = none) ∧
    (env.elapsedAfterDomWait ≤ absolute_timeout timeout →
      env.elapsedAfterIdleWait ≤ absolute_timeout timeout →
      absolute_timeout timeout < env.elapsedAfterScroll →
      (capture_url_sync url timeout env now).result.error
          = some (timeoutMessage timeout) ∧
      (∀ n, env.lastChanceShot = some n →
        (capture_url_sync url timeout env now).result.success = true ∧
        (capture_url_sync url timeout env now).result.isPartial = true ∧
        (capture_url_sync url timeout env now).written = some n) ∧
      (env.lastChanceShot = none →
        (capture_url_sync url timeout env now).result.success = false ∧
        (capture_url_sync url timeout env now).result.isPartial = false ∧
        (capture_url_sync url timeout env now).written = none)) := by
  obtain ⟨le, nav, clh, pcl, e1, e2, e3, lcs, pt, fs, fse, et⟩ := env
  simp only at hle hnav
  subst hle
  subst hnav
  refine ⟨rfl, ?_, ?_, ?_⟩
  · intro hc1
    simp [capture_url_sync, hc1]
  · intro h1 hc2
    have hc1 : ¬ absolute_timeout timeout < e1 := Nat.not_lt.mpr h1
    simp [capture_url_sync, hc1, hc2]
  · intro h1 h2 hc3
    have hc1 : ¬ absolute_timeout timeout < e1 := Nat.not_lt.mpr h1
    have hc2 : ¬ absolute_timeout timeout < e2 := Nat.not_lt.mpr h2
    refine ⟨?_, ?_, ?_⟩
    · cases lcs <;> simp [capture_url_sync, hc1, hc2, hc3]
    · intro n hn
      subst hn
      simp [capture_url_sync, hc1, hc2, hc3]
    · intro hn
      subst hn
      simp [capture_url_sync, hc1, hc2, hc3]

/-- Witness for the C7 theorem: the first check's behaviour at a concrete
environment with 1000 elapsed seconds against a 30-second ceiling. -/
theorem capture_absolute_timeout_checks_witness :
    (capture_url_sync "http://example.com" 10
      { nav := .gotResponse 200, elapsedAfterDomWait := 1000 }
      "2024-01-01T00:00:00").result.error = some (timeoutMessage 10) ∧
    (capture_url_sync "http://example.com" 10
      { nav := .gotResponse 200, elapsedAfterDomWait := 1000 }
      "2024-01-01T00:00:00").result.success = false ∧
    (capture_url_sync "http://example.com" 10
      { nav := .gotResponse 200, elapsedAfterDomWait := 1000 }
      "2024-01-01T00:00:00").result.isPartial = false ∧
    (capture_url_sync "http://example.com" 10
      { nav := .gotResponse 200, elapsedAfterDomWait := 1000 }
      "2024-01-01T00:00:00").written = none :=
  (capture_absolute_timeout_checks "http://example.com" 10
    { nav := .gotResponse 200, elapsedAfterDomWait := 1000 }
    "2024-01-01T00:00:00" 200 rfl rfl).2.1 (by decide)

/-- C9 counterexample: when the navigation call yields no response object,
`capture_url_sync` returns from inside the `try` block before the
`processing_time` assignment at the tail of the function, so the returned
dictionary has no `processing_time` key — refuting "every return path
... contains a processing_time field". -/
theorem capture_missing_processing_time_counterexample :
    (capture_url_sync "http://example.com" 10
      { nav := .noResponse, elapsedTotal := 7 }
      "2024-01-01T00:00:00").result.processing_time = none ∧
    (capture_url_sync "http://example.com" 10
      { nav := .noResponse, elapsedTotal := 7 }
      "2024-01-01T00:00:00").result.error = some "页面无响应" := by
  decide

/-- C9 (amended): `processing_time` is set (to the attempt's elapsed
wall-clock seconds) only on the two paths that reach the tail of the
function — the full pipeline ending in the final screenshot attempt, and
the outer launch-exception handler; the early returns (missing response,
navigation exceptions, and all three absolute-timeout checks) skip the
assignment and return a dictionary without a `processing_time` key. -/
theorem capture_processing_time_paths
    (url : String) (timeout : Nat) (env : CaptureEnv) (now : String) :
    (∀ m, env.launchError = some m →
      (capture_url_sync url timeout env now).result.processing_time
        = some env.elapsedTotal) ∧
    (env.launchError = none → env.nav = .noResponse →
      (capture_url_sync url timeout env now).result.processing_time
        = none) ∧
    (∀ m, env.launchError = none → env.nav = .raised m →
      (capture_url_sync url timeout env now).result.processing_time
        = none) ∧
    (∀ st, env.launchError = none → env.nav = .gotResponse st →
      ((absolute_timeout timeout < env.elapsedAfterDomWait ∨
        absolute_timeout timeout < env.elapsedAfterIdleWait ∨
        absolute_timeout timeout < env.elapsedAfterScroll) →
        (capture_url_sync url timeout env now).result.processing_time
          = none) ∧
      (env.elapsedAfterDomWait ≤ absolute_timeout timeout →
        env.elapsedAfterIdleWait ≤ absolute_timeout timeout →
        env.elapsedAfterScroll ≤ absolute_timeout timeout →
        (capture_url_sync url timeout env now).result.processing_time
          = some env.elapsedTotal)) := by
  obtain ⟨le, nav, clh, pcl, e1, e2, e3, lcs, pt, fs, fse, et⟩ := env
  refine ⟨?_, ?_, ?_, ?_⟩
  · intro m hm
    simp only at hm
    subst hm
    simp [capture_url_sync]
  · intro hle hnav
    simp only at hle hnav
    subst hle
    subst hnav
    simp [capture_url_sync]
  · intro m hle hnav
    simp only at hle hnav
    subst hle
    subst hnav
    by_cases h1 : strContainsSub m "ERR_CONNECTION_REFUSED"
    · simp [capture_url_sync, h1]
    by_cases h2 : strContainsSub m "ERR_NAME_NOT_RESOLVED"
    · simp [capture_url_sync, h1, h2]
    by_cases h3 : strContainsSub m "ERR_CONNECTION_TIMED_OUT"
    · simp [capture_url_sync, h1, h2, h3]
    by_cases h4 : strContainsSub m "ERR_SSL_PROTOCOL_ERROR"
    · simp [capture_url_sync, h1, h2, h3, h4]
    · simp [capture_url_sync, h1, h2, h3, h4]
  · intro st hle hnav
    simp only at hle hnav
    subst hle
    subst hnav
    constructor
    · intro hdisj
      by_cases hc1 : absolute_timeout timeout < e1
      · simp [capture_url_sync, hc1]
      by_cases hc2 : absolute_timeout timeout < e2
      · simp [capture_url_sync, hc1, hc2]
      by_cases hc3 : absolute_timeout timeout < e3
      · cases lcs <;> simp [capture_url_sync, hc1, hc2, hc3]
      · simp only at hdisj
        rcases hdisj with h | h | h <;> omega
    · intro h1 h2 h3
      have hc1 : ¬ absolute_timeout timeout < e1 := Nat.not_lt.mpr h1
      have hc2 : ¬ absolute_timeout timeout < e2 := Nat.not_lt.mpr h2
      have hc3 : ¬ absolute_timeout timeout < e3 := Nat.not_lt.mpr h3
      cases fs <;> cases pt <;> simp [capture_url_sync, hc1, hc2, hc3]

/-- Witness for the C9 theorem: the launch-exception path at a concrete
environment sets `processing_time`. -/
theorem capture_processing_time_paths_witness :
    (capture_url_sync "http://example.com" 10
      { launchError := some "Browser launch failed", elapsedTotal := 7 }
      "2024-01-01T00:00:00").result.processing_time = some 7 :=
  (capture_processing_time_paths "http://example.com" 10
    { launchError := some "Browser launch failed", elapsedTotal := 7 }
    "2024-01-01T00:00:00").1 "Browser launch failed" rfl

/-! ### Lemmas about the retry wrapper -/

theorem workerLoop_step (attempts : Nat → CaptureResult)
    (rc fuel attempt : Nat)
    (hErr : pyTruthyError (attempts attempt) = true)
    (hLt : attempt < rc - 1) :
    workerLoop attempts rc (fuel + 1) attempt
      = workerLoop attempts rc fuel (attempt + 1) := by
  simp only [workerLoop]
  split
  · rfl
  · split
    · next h2 =>
      exfalso
      rcases h2 with h2 | h2
      · rw [hErr] at h2
        exact Bool.noConfusion h2
      · exact Nat.ne_of_lt hLt h2
    · rfl

theorem workerLoop_return (attempts : Nat → CaptureResult)
    (rc fuel attempt : Nat)
    (hOk : pyTruthyError (attempts attempt) = false)
    (hConn : (attempts attempt).connection_error = none) :
    workerLoop attempts rc (fuel + 1) attempt
      = if 0 < attempt then set_retry_attempts (attempts attempt) (attempt + 1)
        else attempts attempt := by
  simp only [workerLoop, hConn, hOk]
  simp

theorem workerLoop_skip (attempts : Nat → CaptureResult) (rc : Nat) :
    ∀ (k a fuel : Nat),
      (∀ i, a ≤ i → i < a + k → pyTruthyError (attempts i) = true) →
      a + k ≤ rc - 1 →
      workerLoop attempts rc (k + fuel) a
        = workerLoop attempts rc fuel (a + k) := by
  intro k
  induction k with
  | zero => intro a fuel _ _; simp
  | succ k ih =>
    intro a fuel hErr hle
    have h1 : pyTruthyError (attempts a) = true :=
      hErr a le_rfl (by omega)
    have hlt : a < rc - 1 := by omega
    have hfa : k + 1 + fuel = (k + fuel) + 1 := by omega
    rw [hfa, workerLoop_step attempts rc (k + fuel) a h1 hlt]
    have hrec := ih (a + 1) fuel
      (fun i hi1 hi2 => hErr i (by omega) (by omega)) (by omega)
    have heq : a + 1 + k = a + (k + 1) := by omega
    rw [heq] at hrec
    exact hrec

theorem workerLoop_final (attempts : Nat → CaptureResult) (rc : Nat) :
    ∀ fuel a, a + fuel = rc → a < rc →
      ∃ k, a ≤ k ∧ k < rc ∧
        (∀ i, a ≤ i → i < k →
          (attempts i).connection_error.isSome = true ∨
          pyTruthyError (attempts i) = true) ∧
        ((attempts k).connection_error = none ∧
          pyTruthyError (attempts k) = false ∨ k = rc - 1) ∧
        workerLoop attempts rc fuel a
          = (if 0 < k ∧ pyTruthyError (attempts k) = false
             then set_retry_attempts (attempts k) (k + 1)
             else attempts k) := by
  intro fuel
  induction fuel with
  | zero => intro a ha hlt; omega
  | succ f ih =>
    intro a ha hlt
    by_cases hb1 : (attempts a).connection_error.isSome ∧ a < rc - 1
    · obtain ⟨k, hk1, hk2, hcont, hret, hval⟩ := ih (a + 1) (by omega) (by omega)
      refine ⟨k, by omega, hk2, ?_, hret, ?_⟩
      · intro i hi1 hi2
        rcases Nat.eq_or_lt_of_le hi1 with heq | hi1'
        · subst heq
          exact Or.inl hb1.1
        · exact hcont i (by omega) hi2
      · rw [← hval]
        simp only [workerLoop]
        rw [if_pos hb1]
    · by_cases hb2 : pyTruthyError (attempts a) = false ∨ a = rc - 1
      · refine ⟨a, le_rfl, hlt, ?_, ?_, ?_⟩
        · intro i hi1 hi2
          exact absurd (Nat.lt_of_lt_of_le hi2 hi1) (Nat.lt_irrefl i)
        · rcases hb2 with hb2 | hb2
          · rcases Nat.lt_or_ge a (rc - 1) with hlt' | hge
            · left
              refine ⟨?_, hb2⟩
              cases hco : (attempts a).connection_error with
              | none => rfl
              | some v =>
                exfalso
                exact hb1 ⟨by rw [hco]; rfl, hlt'⟩
            · right; omega
          · right; exact hb2
        · simp only [workerLoop]
          rw [if_neg hb1, if_pos hb2]
      · have htr : pyTruthyError (attempts a) = true := by
          rcases Bool.eq_false_or_eq_true (pyTruthyError (attempts a)) with h | h
          · exact h
          · exact absurd (Or.inl h) hb2
        have hne : a ≠ rc - 1 := fun h => hb2 (Or.inr h)
        obtain ⟨k, hk1, hk2, hcont, hret, hval⟩ :=
          ih (a + 1) (by omega) (by omega)
        refine ⟨k, by omega, hk2, ?_, hret, ?_⟩
        · intro i hi1 hi2
          rcases Nat.eq_or_lt_of_le hi1 with heq | hi1'
          · subst heq
            exact Or.inr htr
          · exact hcont i (by omega) hi2
        · rw [← hval]
          simp only [workerLoop]
          rw [if_neg hb1, if_neg hb2]

/-! ### Claim theorems: retry wrapper -/

/-- C4 counterexample: at N = 1 (the first attempt succeeds,
`retry_count = 3`), `worker_process` returns the attempt's result
unchanged — the `attempt > 0` guard (capture.py line 1279) means no
`meta_data.retry_attempts` key is written, so `retry_attempts == N` fails
for N = 1. -/
theorem worker_process_first_attempt_counterexample :
    worker_process (fun _ => c4SuccessResult) 3 = some c4SuccessResult ∧
    c4SuccessResult.success = true ∧
    c4SuccessResult.meta_data.retry_attempts ≠ some 1 := by
  decide

/-- C4 (amended), in two parts over the same run.

General return discipline (no assumption on the attempt outcomes): for
every attempt sequence and every `retry_count ≥ 1`, the retry wrapper
stops at some attempt `k` — every earlier attempt having continued the
loop (a connection-error tag or a truthy error), and `k` being either an
attempt that fully cleared its error with no connection-error tag or the
last allowed attempt — and the value returned is exactly that final
attempt's result, annotated with `meta_data.retry_attempts = k + 1`
precisely when the code writes it (`k > 0` and falsy error): the final
attempt's result is the one returned regardless of outcome.

Retry-success scenario: if the first N−1 attempts each end with a
(truthy) error and the Nth attempt fully succeeds (no error, no
connection-error tag, `success = True`, 1 ≤ N ≤ retry_count), the
wrapper returns exactly the Nth attempt's result — with
`meta_data.retry_attempts = N` recorded when N ≥ 2, and unchanged (no
`retry_attempts` key written) when N = 1 — and that result has
`success == true`. -/
theorem worker_process_retry_success
    (attempts : Nat → CaptureResult) (retry_count N : Nat)
    (hN1 : 1 ≤ N) (hNr : N ≤ retry_count) :
    (∃ k, k < retry_count ∧
      (∀ i, i < k →
        (attempts i).connection_error.isSome = true ∨
        pyTruthyError (attempts i) = true) ∧
      ((attempts k).connection_error = none ∧
        pyTruthyError (attempts k) = false ∨ k = retry_count - 1) ∧
      worker_process attempts retry_count
        = some (if 0 < k ∧ pyTruthyError (attempts k) = false
                then set_retry_attempts (attempts k) (k + 1)
                else attempts k)) ∧
    ((∀ i, i < N - 1 → pyTruthyError (attempts i) = true) →
      pyTruthyError (attempts (N - 1)) = false →
      (attempts (N - 1)).connection_error = none →
      (attempts (N - 1)).success = true →
      worker_process attempts retry_count
        = some (if 2 ≤ N then set_retry_attempts (attempts (N - 1)) N
                else attempts (N - 1)) ∧
      ∀ r, worker_process attempts retry_count = some r →
        r.success = true ∧ (2 ≤ N → r.meta_data.retry_attempts = some N)) := by
  have hrc : ¬ retry_count = 0 := by omega
  constructor
  · obtain ⟨k, hk0, hk1, hcont, hret, hval⟩ :=
      workerLoop_final attempts retry_count retry_count 0 (by omega) (by omega)
    refine ⟨k, hk1, fun i hi => hcont i (Nat.zero_le i) hi, hret, ?_⟩
    unfold worker_process
    rw [if_neg hrc, hval]
  · intro hErr hOk hConn hSucc
    have hfuel : retry_count = (N - 1) + (retry_count - (N - 1)) := by omega
    have hskip := workerLoop_skip attempts retry_count (N - 1) 0
      (retry_count - (N - 1))
      (fun i hi1 hi2 => hErr i (by omega)) (by omega)
    have hfuel2 : retry_count - (N - 1)
        = (retry_count - (N - 1) - 1) + 1 := by omega
    have hret := workerLoop_return attempts retry_count
      (retry_count - (N - 1) - 1) (N - 1) hOk hConn
    have hN : N - 1 + 1 = N := by omega
    have hval : workerLoop attempts retry_count retry_count 0
        = if 2 ≤ N then set_retry_attempts (attempts (N - 1)) N
          else attempts (N - 1) := by
      have h0 : workerLoop attempts retry_count retry_count 0
          = workerLoop attempts retry_count
              (retry_count - (N - 1)) (N - 1) := by
        have h1 := hskip
        rw [← hfuel] at h1
        simpa using h1
      rw [h0, hfuel2, hret, hN]
      by_cases h2 : 2 ≤ N
      · rw [if_pos (by omega : 0 < N - 1), if_pos h2]
      · rw [if_neg (by omega : ¬ 0 < N - 1), if_neg h2]
    constructor
    · unfold worker_process
      rw [if_neg hrc, hval]
    · intro r hr
      unfold worker_process at hr
      rw [if_neg hrc, hval] at hr
      by_cases h2 : 2 ≤ N
      · rw [if_pos h2] at hr
        have hr' := Option.some.inj hr
        subst hr'
        exact ⟨by simpa [set_retry_attempts] using hSucc,
          fun _ => by simp [set_retry_attempts]⟩
      · rw [if_neg h2] at hr
        have hr' := Option.some.inj hr
        subst hr'
        exact ⟨hSucc, fun hc => absurd hc h2⟩

/-- Witness for the C4 theorem: `retry_count = 2`, first attempt fails,
second succeeds; the returned result is the second (final) attempt's
with `retry_attempts = 2`. -/
theorem worker_process_retry_success_witness :
    (∃ k, k < 2 ∧
      (∀ i, i < k →
        (c4Attempts i).connection_error.isSome = true ∨
        pyTruthyError (c4Attempts i) = true) ∧
      ((c4Attempts k).connection_error = none ∧
        pyTruthyError (c4Attempts k) = false ∨ k = 2 - 1) ∧
      worker_process c4Attempts 2
        = some (if 0 < k ∧ pyTruthyError (c4Attempts k) = false
                then set_retry_attempts (c4Attempts k) (k + 1)
                else c4Attempts k)) ∧
    (worker_process c4Attempts 2
      = some (if 2 ≤ 2 then set_retry_attempts (c4Attempts (2 - 1)) 2
              else c4Attempts (2 - 1)) ∧
    ∀ r, worker_process c4Attempts 2 = some r →
      r.success = true ∧ (2 ≤ 2 → r.meta_data.retry_attempts = some 2)) :=
  ⟨(worker_process_retry_success c4Attempts 2 2 (by decide) (by decide)).1,
    (worker_process_retry_success c4Attempts 2 2 (by decide) (by decide)).2
      (by decide) (by decide) (by decide) (by decide)⟩

/-! ### Lemmas about the orchestrator -/

theorem collectResults_length (tasks : List (String × FetchOutcome))
    (now : String) (failed : Nat) :
    (collectResults tasks now failed).1.length = tasks.length := by
  induction tasks generalizing failed with
  | nil => simp [collectResults]
  | cons p rest ih =>
    obtain ⟨url, o⟩ := p
    cases o <;> simp [collectResults, ih]

theorem collectResults_urls (tasks : List (String × FetchOutcome))
    (now : String) (failed : Nat)
    (h : ∀ p ∈ tasks, ∀ r, p.2 = FetchOutcome.fetched r → r.url = p.1) :
    (collectResults tasks now failed).1.map (fun r => r.url)
      = tasks.map (fun p => p.1) := by
  induction tasks generalizing failed with
  | nil => simp [collectResults]
  | cons p rest ih =>
    obtain ⟨url, o⟩ := p
    have hrest := fun q hq => h q (List.mem_cons_of_mem _ hq)
    cases o with
    | fetched r =>
      have hurl : r.url = url := h (url, .fetched r) (List.mem_cons_self _ _) r rfl
      simp [collectResults, ih _ hrest, hurl]
    | fetchTimeout =>
      simp [collectResults, ih _ hrest, synthesized_result]
    | fetchRaised msg =>
      simp [collectResults, ih _ hrest, synthesized_result]

theorem inject_batch_info_length (results : List CaptureResult)
    (bi : BatchInfo) :
    (inject_batch_info results bi).length = results.length := by
  simp [inject_batch_info]

theorem inject_batch_info_urls (results : List CaptureResult)
    (bi : BatchInfo) :
    (inject_batch_info results bi).map (fun r => r.url)
      = results.map (fun r => r.url) := by
  simp [inject_batch_info]

/-! ### Claim theorems: orchestrator -/

/-- C1: for every non-empty input URL list (unpaginated run) whose
per-task fetch outcomes carry the dispatched URL in any fetched worker
result, `capture_urls_parallel` returns exactly one `CaptureResult` per
input URL: the result count equals the input count and the result `url`
fields are exactly the input URLs, in dispatch order, whatever mix of
worker results, fetch timeouts, and worker exceptions occurred. -/
theorem capture_urls_parallel_one_result_per_url
    (urls : List String) (outcomes : List FetchOutcome) (now : String)
    (successCount failed0 : Nat)
    (_hne : urls ≠ [])
    (hlen : outcomes.length = urls.length)
    (hurl : ∀ p ∈ urls.zip outcomes, ∀ r,
      p.2 = FetchOutcome.fetched r → r.url = p.1) :
    (capture_urls_parallel urls outcomes now successCount failed0).length
      = urls.length ∧
    (capture_urls_parallel urls outcomes now successCount failed0).map
      (fun r => r.url) = urls := by
  have hziplen : (urls.zip outcomes).length = urls.length := by
    simp [List.length_zip, hlen]
  have hclen : (collectResults (urls.zip outcomes) now failed0).1.length
      = urls.length := by
    rw [collectResults_length, hziplen]
  have hrec : reconcile urls
      (collectResults (urls.zip outcomes) now failed0).1 now
      = (collectResults (urls.zip outcomes) now failed0).1 := by
    unfold reconcile
    rw [if_neg (by omega)]
  have hcurls : (collectResults (urls.zip outcomes) now failed0).1.map
      (fun r => r.url) = urls := by
    rw [collectResults_urls _ _ _ hurl, List.map_fst_zip]
    omega
  have hrepr : capture_urls_parallel urls outcomes now successCount failed0
      = inject_batch_info
          (reconcile urls
            (collectResults (urls.zip outcomes) now failed0).1 now)
          { total_urls := urls.length, total_success := successCount,
            total_failed :=
              (collectResults (urls.zip outcomes) now failed0).2 } := rfl
  rw [hrepr, hrec]
  constructor
  · rw [inject_batch_info_length, hclen]
  · rw [inject_batch_info_urls]
    exact hcurls

/-- Witness for C1: two URLs, one fetched worker result and one fetch
timeout; the orchestrator still returns one record per URL. -/
theorem capture_urls_parallel_one_result_per_url_witness :
    (capture_urls_parallel ["http://a.com", "http://b.com"]
      [FetchOutcome.fetched c1ResultA, FetchOutcome.fetchTimeout]
      "2024-01-01T00:00:00" 1 0).length = 2 ∧
    (capture_urls_parallel ["http://a.com", "http://b.com"]
      [FetchOutcome.fetched c1ResultA, FetchOutcome.fetchTimeout]
      "2024-01-01T00:00:00" 1 0).map (fun r => r.url)
      = ["http://a.com", "http://b.com"] :=
  capture_urls_parallel_one_result_per_url
    ["http://a.com", "http://b.com"]
    [FetchOutcome.fetched c1ResultA, FetchOutcome.fetchTimeout]
    "2024-01-01T00:00:00" 1 0 (by decide) (by decide)
    (by
      intro p hp r hr
      simp only [List.zip_cons_cons, List.zip_nil_right, List.mem_cons,
        List.not_mem_nil, or_false] at hp
      rcases hp with rfl | rfl
      · simp only at hr
        rw [← FetchOutcome.fetched.inj hr]
        decide
      · exact FetchOutcome.noConfusion hr)

/-- C8 counterexample: a single task whose result fetch times out — the
synthesized record carries the timeout message, but the shared failure
counter is left untouched (stays 0), refuting "still counts that URL as
failed in the shared failure counter". -/
theorem collectResults_timeout_counter_counterexample :
    (collectResults [("http://a.com", FetchOutcome.fetchTimeout)]
      "2024-01-01T00:00:00" 0).2 = 0 ∧
    (collectResults [("http://a.com", FetchOutcome.fetchTimeout)]
      "2024-01-01T00:00:00" 0).1
      = [synthesized_result "http://a.com" "2024-01-01T00:00:00"
          "获取任务结果超时"] := by
  decide

/-- C8 (amended): the orchestrator fetches each dispatched task's result
with a bounded 10-second wait; a fetch timeout synthesizes a
`CaptureResult` carrying the timeout message and any other exception one
carrying the exception text, each appended in task order — but only the
exception branch increments the shared failure counter; a fetch timeout
leaves it unchanged. -/
theorem collectResults_spec (tasks : List (String × FetchOutcome))
    (now : String) (failed0 : Nat) :
    result_timeout = 10 ∧
    (collectResults tasks now failed0).1 = tasks.map (fun p =>
      match p.2 with
      | .fetched r => r
      | .fetchTimeout => synthesized_result p.1 now "获取任务结果超时"
      | .fetchRaised m => synthesized_result p.1 now m) ∧
    (collectResults tasks now failed0).2 = failed0 + tasks.countP (fun p =>
      match p.2 with
      | .fetchRaised _ => true
      | _ => false) := by
  refine ⟨rfl, ?_, ?_⟩
  · induction tasks generalizing failed0 with
    | nil => simp [collectResults]
    | cons p rest ih =>
      obtain ⟨url, o⟩ := p
      cases o <;> simp [collectResults, ih]
  · induction tasks generalizing failed0 with
    | nil => simp [collectResults]
    | cons p rest ih =>
      obtain ⟨url, o⟩ := p
      cases o <;> (simp [collectResults, ih, List.countP_cons]; try omega)

/-! ### Claim theorems: URL-file reader -/

theorem cleanedUrl_printable (line : List Char) :
    ∀ c ∈ cleanedUrl line, 32 ≤ c.toNat ∧ c.toNat ≤ 126 := by
  intro c hc
  have := (List.mem_filter.mp hc).2
  unfold isPrintableAscii at this
  simp only [Bool.and_eq_true, decide_eq_true_eq] at this
  exact this

theorem validatedUrl_printable (validate : Bool) (u : List Char)
    (hu : ∀ c ∈ u, 32 ≤ c.toNat ∧ c.toNat ≤ 126) :
    ∀ c ∈ validatedUrl validate u, 32 ≤ c.toNat ∧ c.toNat ≤ 126 := by
  intro c hc
  unfold validatedUrl at hc
  split at hc
  · rcases List.mem_append.mp hc with hc | hc
    · have hpref : ∀ c ∈ "http://".toList, 32 ≤ c.toNat ∧ c.toNat ≤ 126 := by
        decide
      exact hpref c hc
    · exact hu c hc
  · exact hu c hc

/-- C10: every URL returned by the reader's line loop is non-empty and
consists only of printable ASCII characters (0x20–0x7E): all other
characters are removed by the cleaning substitution before validation,
and any line left empty (or all-whitespace) after cleaning is dropped. -/
theorem read_urls_printable (lines : List (List Char)) (validate : Bool)
    (url : List Char) (h : url ∈ read_urls lines validate) :
    url ≠ [] ∧ ∀ c ∈ url, 32 ≤ c.toNat ∧ c.toNat ≤ 126 := by
  obtain ⟨line, _, hproc⟩ := List.mem_filterMap.mp h
  unfold processLine at hproc
  split at hproc
  · exact absurd hproc (by simp)
  · split at hproc
    · next hcond =>
      have hu : url = validatedUrl validate (cleanedUrl (pyStripWS line)) :=
        (Option.some.inj hproc).symm
      subst hu
      constructor
      · intro hnil
        rw [hnil] at hcond
        simp at hcond
      · exact validatedUrl_printable validate _
          (cleanedUrl_printable (pyStripWS line))
    · exact absurd hproc (by simp)

/-- Witness for C10: a schemeless line with surrounding whitespace and a
non-ASCII character is cleaned, prefixed, and returned printable. -/
theorem read_urls_printable_witness :
    ("http://example.com".toList ≠ ([] : List Char)) ∧
    ∀ c ∈ "http://example.com".toList, 32 ≤ c.toNat ∧ c.toNat ≤ 126 :=
  read_urls_printable ["  example.com  ".toList] true
    "http://example.com".toList (by decide)

end EyeUrl
